import Mathlib

/-!
Shallow embedding of the reparenting window manager in `src/main.rs`.

X window ids are modelled as `Nat`.  The WM's outgoing X protocol requests
are reified as an inductive `XRequest`, so each event handler is a pure
function from the WM state (plus the server replies it reads) to an updated
state together with the ordered list of requests it issues.  Rust code that
can panic (`assert!`, `unwrap`) is modelled with `Option`: `none` is a panic.
`XCreateSimpleWindow`'s id allocation is modelled by a `nextWindow` counter
threaded through the state.
-/

/-- An X window id (`x11::xlib::Window`, an opaque server-issued id). -/
abbrev Window := Nat

/-- `x11::xlib::BadAccess` error code. -/
def BadAccess : Nat := 10

/-- `x11::xlib::IsViewable` map state. -/
def IsViewable : Nat := 2

/-- `x11::xlib::Button1Mask` (bit 8 of the modifier/button state). -/
def Button1Mask : Nat := 256

/-- `x11::xlib::Mod1Mask`. -/
def Mod1Mask : Nat := 8

/-- `x11::xlib::Button1`. -/
def Button1 : Nat := 1

/-- `x11::xlib::SubstructureNotifyMask` (bit 19). -/
def SubstructureNotifyMask : Nat := 524288

/-- `x11::xlib::SubstructureRedirectMask` (bit 20). -/
def SubstructureRedirectMask : Nat := 1048576

/-- Keysym `XK_Q`. -/
def XK_Q : Nat := 81

/-- Keysym `XK_Tab`. -/
def XK_Tab : Nat := 65289

/-- `struct ClientList(Vec<(Window, Window)>)` — the insertion-ordered
registry of (client window, frame window) pairs (main.rs:25-26). -/
structure ClientList where
  entries : List (Window × Window)
deriving DecidableEq

/-- `ClientList::new` (main.rs:29-31). -/
def ClientList.new : ClientList := ⟨[]⟩

/-- `ClientList::len` (main.rs:33-35). -/
def ClientList.len (c : ClientList) : Nat := c.entries.length

/-- Helper for `ClientList::contains`: first-match membership scan of the
underlying vector (main.rs:37-39, `iter().find(|(win, _)| win == w).is_some()`). -/
def containsAux (w : Window) : List (Window × Window) → Bool
  | [] => false
  | p :: rest => p.1 == w || containsAux w rest

/-- `ClientList::contains` (main.rs:37-39). -/
def ClientList.contains (c : ClientList) (w : Window) : Bool :=
  containsAux w c.entries

/-- Helper for `ClientList::find`: index of the first entry whose client id
matches (main.rs:41-47, `iter().enumerate().find(..).map(|(i, _)| i)`). -/
def findAux (w : Window) : List (Window × Window) → Option Nat
  | [] => none
  | p :: rest => if p.1 = w then some 0 else (findAux w rest).map (· + 1)

/-- `ClientList::find` (main.rs:41-47). -/
def ClientList.find (c : ClientList) (w : Window) : Option Nat :=
  findAux w c.entries

/-- `ClientList::index` (main.rs:49-51, `self.0.get(i)`). -/
def ClientList.index (c : ClientList) (i : Nat) : Option (Window × Window) :=
  c.entries[i]?

/-- Helper for `ClientList::get`: frame of the first entry whose client id
matches (main.rs:53-55). -/
def getAux (w : Window) : List (Window × Window) → Option Window
  | [] => none
  | p :: rest => if p.1 = w then some p.2 else getAux w rest

/-- `ClientList::get` (main.rs:53-55). -/
def ClientList.get (c : ClientList) (w : Window) : Option Window :=
  getAux w c.entries

/-- `ClientList::insert` (main.rs:57-59): `self.0.push((w, f))` — an
unconditional append, with no presence check. -/
def ClientList.insert (c : ClientList) (w f : Window) : ClientList :=
  ⟨c.entries ++ [(w, f)]⟩

/-- `ClientList::remove` (main.rs:61-65): `if let Some(i) = self.find(w)
{ self.0.remove(i); }` — removes the first matching entry, no-op if absent. -/
def ClientList.remove (c : ClientList) (w : Window) : ClientList :=
  match c.find w with
  | some i => ⟨c.entries.eraseIdx i⟩
  | none => c

/-- The fields of `x11::xlib::XWindowAttributes` that `frame` reads
(main.rs:325-345).  `x, y, width, height` are C `int`s; `override_redirect`
is a C `Bool` (int); `map_state` is compared against `IsViewable`. -/
structure XWindowAttributes where
  x : Int
  y : Int
  width : Int
  height : Int
  override_redirect : Int
  map_state : Nat
deriving DecidableEq

/-- `x11::xlib::XWindowChanges` as filled in by `on_configure_request`
(main.rs:433-441). -/
structure XWindowChanges where
  x : Int
  y : Int
  width : Int
  height : Int
  border_width : Int
  sibling : Window
  stack_mode : Int
deriving DecidableEq

/-- The fields of `x11::xlib::XConfigureRequestEvent` read by
`on_configure_request` (main.rs:432-464).  `value_mask` is a C `ulong`. -/
structure XConfigureRequestEvent where
  window : Window
  x : Int
  y : Int
  width : Int
  height : Int
  border_width : Int
  above : Window
  detail : Int
  value_mask : Nat
deriving DecidableEq

/-- The fields of `x11::xlib::XUnmapEvent` read by `on_unmap_notify`
(main.rs:426-430). -/
structure XUnmapEvent where
  event : Window
  window : Window
deriving DecidableEq

/-- The fields of `x11::xlib::XMapRequestEvent` read by `on_map_request`
(main.rs:403-410). -/
structure XMapRequestEvent where
  window : Window
deriving DecidableEq

/-- The fields of `x11::xlib::XButtonPressedEvent` read by
`on_button_pressed` (main.rs:224-261). -/
structure XButtonPressedEvent where
  window : Window
  x_root : Int
  y_root : Int
deriving DecidableEq

/-- The fields of `x11::xlib::XMotionEvent` read by `on_motion_notify`
(main.rs:202-222). -/
structure XMotionEvent where
  window : Window
  x_root : Int
  y_root : Int
  state : Nat
deriving DecidableEq

/-- The fields of `x11::xlib::XErrorEvent` read by the error handlers
(main.rs:480-492). -/
structure XErrorEvent where
  error_code : Nat
deriving DecidableEq

/-- The geometry reply of `XGetGeometry` read by `on_button_pressed`
(main.rs:230-250); only `x` and `y` are consumed. -/
structure XGeometry where
  x : Int
  y : Int
  width : Nat
  height : Nat
  border_width : Nat
  depth : Nat
deriving DecidableEq

/-- One outgoing X protocol request, in the order the Rust code issues them. -/
inductive XRequest where
  | createSimpleWindow (parent : Window) (x y : Int) (width height : Nat)
      (border_width : Nat) (border_color : Nat) (bg_color : Nat)
  | selectInput (w : Window) (mask : Nat)
  | addToSaveSet (w : Window)
  | reparentWindow (w parent : Window) (x y : Int)
  | mapWindow (w : Window)
  | unmapWindow (w : Window)
  | destroyWindow (w : Window)
  | removeFromSaveSet (w : Window)
  | configureWindow (w : Window) (value_mask : Nat) (changes : XWindowChanges)
  | moveWindow (w : Window) (x y : Int)
  | raiseWindow (w : Window)
  | setInputFocus (w : Window)
  | getGeometry (w : Window)
  | grabKey (modifiers : Nat) (keysym : Nat) (w : Window)
  | grabButton (modifiers : Nat) (button : Nat) (w : Window)
  | killClient (w : Window)
deriving DecidableEq

/-- The mutable state of `WindowManager` (main.rs:83-89), plus a `nextWindow`
counter modelling `XCreateSimpleWindow`'s allocation of fresh window ids. -/
structure WMState where
  root : Window
  clients : ClientList
  drag_pos_start : Option (Int × Int)
  drag_frame_pos : Option (Int × Int)
  nextWindow : Window
deriving DecidableEq

/-- `BORDER_WIDTH` (main.rs:319). -/
def BORDER_WIDTH : Nat := 3

/-- `BORDER_COLOR` (main.rs:320). -/
def BORDER_COLOR : Nat := 0xFF00FF

/-- `BG_COLOR` (main.rs:321). -/
def BG_COLOR : Nat := 0x0000FF

/-- `WindowManager::frame` (main.rs:318-368).  `attrs` is the server's
reply to `XGetWindowAttributes`.  Returns `none` where the Rust code panics
(the `try_into().unwrap()` on a negative width/height).  The request list is
in the exact order of the X calls: create, select-input, add-to-save-set,
reparent, map, then the two key grabs and the button grab; the registry
insert happens between the map and the grabs. -/
def frame (s : WMState) (w : Window) (created_before_wm : Bool)
    (attrs : XWindowAttributes) : Option (WMState × List XRequest) :=
  if created_before_wm ∧ (attrs.override_redirect ≠ 0 ∨ attrs.map_state ≠ IsViewable) then
    some (s, [])
  else if 0 ≤ attrs.width ∧ 0 ≤ attrs.height then
    some ({ s with clients := s.clients.insert w s.nextWindow,
                   nextWindow := s.nextWindow + 1 },
      [XRequest.createSimpleWindow s.root attrs.x attrs.y attrs.width.toNat
          attrs.height.toNat BORDER_WIDTH BORDER_COLOR BG_COLOR,
       XRequest.selectInput s.nextWindow
          (SubstructureRedirectMask ||| SubstructureNotifyMask),
       XRequest.addToSaveSet w,
       XRequest.reparentWindow w s.nextWindow 0 0,
       XRequest.mapWindow s.nextWindow,
       XRequest.grabKey Mod1Mask XK_Q w,
       XRequest.grabKey Mod1Mask XK_Tab w,
       XRequest.grabButton Mod1Mask Button1 w])
  else none

/-- `WindowManager::unframe` (main.rs:412-424).  `none` models the panic of
`self.clients.get(&w).unwrap()` when the client is not registered.  Request
order is exactly that of the X calls: unmap frame, reparent client back to
root, remove client from save-set, destroy frame. -/
def unframe (s : WMState) (w : Window) : Option (WMState × List XRequest) :=
  match s.clients.get w with
  | none => none
  | some fr =>
    some ({ s with clients := s.clients.remove w },
      [XRequest.unmapWindow fr,
       XRequest.reparentWindow w s.root 0 0,
       XRequest.removeFromSaveSet w,
       XRequest.destroyWindow fr])

/-- `WindowManager::on_unmap_notify` (main.rs:426-430). -/
def on_unmap_notify (s : WMState) (e : XUnmapEvent) :
    Option (WMState × List XRequest) :=
  if e.event ≠ s.root ∧ s.clients.contains e.window then
    unframe s e.window
  else
    some (s, [])

/-- `WindowManager::on_configure_request` (main.rs:432-464).  `none` models
the panic of `e.value_mask.try_into().unwrap()` (u64 → u32). -/
def on_configure_request (s : WMState) (e : XConfigureRequestEvent) :
    Option (WMState × List XRequest) :=
  if e.value_mask < 2 ^ 32 then
    let changes : XWindowChanges :=
      { x := e.x, y := e.y, width := e.width, height := e.height,
        border_width := e.border_width, sibling := e.above,
        stack_mode := e.detail }
    some (s,
      (match s.clients.get e.window with
       | some fr => [XRequest.configureWindow fr e.value_mask changes]
       | none => []) ++
      [XRequest.configureWindow e.window e.value_mask changes])
  else none

/-- `WindowManager::on_map_request` (main.rs:403-410): frame with
`created_before_wm = false`, then explicitly map the client. -/
def on_map_request (s : WMState) (e : XMapRequestEvent)
    (attrs : XWindowAttributes) : Option (WMState × List XRequest) :=
  match frame s e.window false attrs with
  | none => none
  | some (s1, reqs) => some (s1, reqs ++ [XRequest.mapWindow e.window])

/-- `WindowManager::on_button_pressed` (main.rs:224-261).  `geom` is the
server's `XGetGeometry` reply for the frame; `none` models the panic of the
`assert!(self.clients.contains(&e.window))` / `get(..).unwrap()`. -/
def on_button_pressed (s : WMState) (e : XButtonPressedEvent)
    (geom : XGeometry) : Option (WMState × List XRequest) :=
  match s.clients.get e.window with
  | none => none
  | some fr =>
    some ({ s with drag_pos_start := some (e.x_root, e.y_root),
                   drag_frame_pos := some (geom.x, geom.y) },
      [XRequest.getGeometry fr,
       XRequest.raiseWindow fr,
       XRequest.setInputFocus e.window])

/-- `WindowManager::on_button_released` (main.rs:263-266): clears both
components of the drag state; issues no requests. -/
def on_button_released (s : WMState) : WMState × List XRequest :=
  ({ s with drag_frame_pos := none, drag_pos_start := none }, [])

/-- `WindowManager::on_motion_notify` (main.rs:202-222).  `none` models the
panics of the three leading `assert!`s (client registered, both drag-state
components present; `contains` holding is equivalent to `get` succeeding).
With `Button1` held in `e.state` the frame is moved to
`drag_frame_pos + (pointer - drag_pos_start)`; otherwise nothing is issued. -/
def on_motion_notify (s : WMState) (e : XMotionEvent) :
    Option (WMState × List XRequest) :=
  match s.clients.get e.window, s.drag_pos_start, s.drag_frame_pos with
  | some fr, some dps, some dfp =>
    let delta := (e.x_root - dps.1, e.y_root - dps.2)
    if e.state &&& Button1Mask ≠ 0 then
      some (s, [XRequest.moveWindow fr (dfp.1 + delta.1) (dfp.2 + delta.2)])
    else
      some (s, [])
  | _, _, _ => none

/-- The alt-tab target computation of `WindowManager::on_key_pressed`
(main.rs:296-298): `let i = self.clients.find(&e.window).unwrap();
let i = (i + 1) % self.clients.len(); self.clients.index(i).unwrap()`.
`none` models the two `unwrap` panics. -/
def cycle_target (clients : ClientList) (w : Window) : Option (Window × Window) :=
  match clients.find w with
  | none => none
  | some i => clients.index ((i + 1) % clients.len)

/-- Iterated cycling: the client reached after `n` alt-tab presses starting
from `w` (each press focuses `cycle_target`'s client, which is the next
press's event window). -/
def cycleN (clients : ClientList) (w : Window) : Nat → Option Window
  | 0 => some w
  | n + 1 =>
    match cycle_target clients w with
    | none => none
    | some (w1, _) => cycleN clients w1 n

/-- `WindowManager::on_wm_detected` (main.rs:486-492): asserts the error is
`BadAccess` (`none` models the assertion failure), else stores `true` into
`WM_DETECTED` and returns `0`.  Result: (flag value stored, return value). -/
def on_wm_detected (e : XErrorEvent) : Option (Bool × Int) :=
  if e.error_code = BadAccess then some (true, 0) else none

/-- The startup scan (main.rs:166-168): `frame(w, true)` for each top-level
window returned by `XQueryTree`, in order, each paired with the attribute
reply `frame` queries for it. -/
def startupScan (s : WMState) :
    List (Window × XWindowAttributes) → Option (WMState × List XRequest)
  | [] => some (s, [])
  | (w, attrs) :: rest =>
    match frame s w true attrs with
    | none => none
    | some (s1, reqs1) =>
      match startupScan s1 rest with
      | none => none
      | some (s2, reqs2) => some (s2, reqs1 ++ reqs2)

/-- The startup-scan skip test of `frame` (main.rs:332-336), negated: a
pre-existing window is managed iff it is not override-redirect and is
currently viewable. -/
def eligible (a : XWindowAttributes) : Bool :=
  a.override_redirect == 0 && a.map_state == IsViewable

/-- The registry entries the startup scan appends: one `(client, frame)`
pair per eligible window, with frame ids allocated in order from `next`. -/
def scanClients (next : Window) :
    List (Window × XWindowAttributes) → List (Window × Window)
  | [] => []
  | (w, a) :: rest =>
    if eligible a then (w, next) :: scanClients (next + 1) rest
    else scanClients next rest

/-- A concrete state used by the witnesses: root window 1, one registered
client (5, frame 100), no drag in progress. -/
def sampleState : WMState :=
  { root := 1, clients := ⟨[(5, 100)]⟩, drag_pos_start := none,
    drag_frame_pos := none, nextWindow := 200 }

/-- Concrete attributes of a viewable, non-override-redirect window. -/
def sampleAttrs : XWindowAttributes :=
  { x := 10, y := 20, width := 640, height := 480,
    override_redirect := 0, map_state := IsViewable }

/-- Concrete attributes of an override-redirect window. -/
def orAttrs : XWindowAttributes :=
  { x := 0, y := 0, width := 100, height := 100,
    override_redirect := 1, map_state := IsViewable }

/-- A concrete two-entry registry used by the witnesses. -/
def sampleClients : ClientList := ⟨[(5, 100), (7, 101)]⟩

/-! ## Shared lemmas about the registry scans -/

/-- `contains` succeeds exactly when `get` does: both are first-match scans
over the same vector with the same test. -/
theorem containsAux_eq_isSome (w : Window) (l : List (Window × Window)) :
    containsAux w l = (getAux w l).isSome := by
  induction l with
  | nil => rfl
  | cons p rest ih =>
    by_cases h : p.1 = w
    · simp [containsAux, getAux, h]
    · simp [containsAux, getAux, h, ih]

/-- A registered client has a frame: `contains` implies `get` succeeds. -/
theorem get_isSome_of_contains (c : ClientList) (w : Window)
    (h : c.contains w = true) : ∃ fr, c.get w = some fr := by
  have he := containsAux_eq_isSome w c.entries
  rw [ClientList.contains, he] at h
  rcases hg : getAux w c.entries with _ | fr
  · rw [hg] at h
    simp at h
  · exact ⟨fr, hg⟩

/-- The index returned by `find` is in bounds, so the `Vec::remove(i)` inside
`ClientList::remove` cannot hit its out-of-range panic. -/
theorem findAux_lt_length (w : Window) (l : List (Window × Window)) (i : Nat)
    (h : findAux w l = some i) : i < l.length := by
  induction l generalizing i with
  | nil => simp [findAux] at h
  | cons p rest ih =>
    simp only [findAux] at h
    by_cases hp : p.1 = w
    · rw [if_pos hp] at h
      cases h
      simp
    · rw [if_neg hp] at h
      rcases hf : findAux w rest with _ | j
      · rw [hf] at h
        simp at h
      · rw [hf] at h
        simp at h
        have := ih j hf
        simp only [List.length_cons]
        omega

/-- `find` fails exactly on absent client ids. -/
theorem findAux_eq_none_iff (w : Window) (l : List (Window × Window)) :
    findAux w l = none ↔ w ∉ l.map Prod.fst := by
  induction l with
  | nil => simp [findAux]
  | cons p rest ih =>
    by_cases hp : p.1 = w
    · simp [findAux, hp]
    · simp [findAux, hp, Option.map_eq_none', ih, Ne.symm hp]

/-- `find` returns the index of the first entry whose client id matches:
that entry carries the id, and no earlier entry does. -/
theorem findAux_first_match (w : Window) (l : List (Window × Window)) (i : Nat)
    (h : findAux w l = some i) :
    (l[i]?).map Prod.fst = some w ∧ w ∉ (l.take i).map Prod.fst := by
  induction l generalizing i with
  | nil => simp [findAux] at h
  | cons p rest ih =>
    simp only [findAux] at h
    by_cases hp : p.1 = w
    · rw [if_pos hp] at h
      cases h
      simp [hp]
    · rw [if_neg hp] at h
      rcases hf : findAux w rest with _ | j
      · rw [hf] at h
        simp at h
      · rw [hf] at h
        simp at h
        subst h
        obtain ⟨h1, h2⟩ := ih j hf
        refine ⟨by simpa using h1, ?_⟩
        simp only [List.take_succ_cons, List.map_cons, List.mem_cons]
        rintro (rfl | hmem)
        · exact hp rfl
        · exact h2 hmem

/-- Erasing a valid index splits the list around it. -/
theorem eraseIdx_eq_take_append_drop (l : List (Window × Window)) (i : Nat) :
    l.eraseIdx i = l.take i ++ l.drop (i + 1) := by
  induction l generalizing i with
  | nil => simp
  | cons p rest ih =>
    rcases i with _ | j
    · simp
    · simp [List.eraseIdx, ih]

/-- In a registry whose client ids are distinct, `find` applied to the id of
the `i`-th entry returns `i`. -/
theorem findAux_getElem_nodup (l : List (Window × Window))
    (h : (l.map Prod.fst).Nodup) (i : Nat) (w f : Window)
    (hent : l[i]? = some (w, f)) : findAux w l = some i := by
  induction l generalizing i with
  | nil => simp at hent
  | cons p rest ih =>
    rw [List.map_cons] at h
    rcases List.nodup_cons.mp h with ⟨hhead, htail⟩
    rcases i with _ | j
    · simp only [List.getElem?_cons_zero, Option.some.injEq] at hent
      subst hent
      simp [findAux]
    · simp only [List.getElem?_cons_succ] at hent
      have hw : w ∈ rest.map Prod.fst := by
        have : (w, f) ∈ rest := by
          have := List.getElem?_eq_some_iff.mp hent
          obtain ⟨hj, hget⟩ := this
          exact hget ▸ List.getElem_mem hj
        simpa using ⟨f, this⟩
      have hp : p.1 ≠ w := fun hpe => hhead (hpe ▸ hw)
      simp [findAux, hp, ih htail j hent]

/-- A positive occurrence count for every contained client id. -/
theorem countP_pos_of_containsAux (w : Window) (l : List (Window × Window))
    (h : containsAux w l = true) :
    1 ≤ l.countP (fun p => p.1 == w) := by
  induction l with
  | nil => simp [containsAux] at h
  | cons p rest ih =>
    simp only [containsAux, Bool.or_eq_true] at h
    rcases h with h | h
    · simp [List.countP_cons, h]
    · have := ih h
      simp only [List.countP_cons]
      omega

/-- During the startup scan, an ineligible window (override-redirect or not
viewable) is skipped: state unchanged, no requests issued (main.rs:332-336). -/
theorem frame_skip (s : WMState) (w : Window) (a : XWindowAttributes)
    (h : eligible a = false) : frame s w true a = some (s, []) := by
  have hcond : a.override_redirect ≠ 0 ∨ a.map_state ≠ IsViewable := by
    simp only [eligible, Bool.and_eq_false_iff, beq_eq_false_iff_ne] at h
    exact h
  rw [frame, if_pos ⟨rfl, hcond⟩]

/-- When the skip test does not fire (either `created_before_wm` is false,
or the window is eligible) and the reported geometry is well-formed, `frame`
creates the frame, registers the pair, and issues the full request sequence. -/
theorem frame_run (s : WMState) (w : Window) (a : XWindowAttributes) (cbw : Bool)
    (hw : 0 ≤ a.width) (hh : 0 ≤ a.height)
    (helig : cbw = false ∨ eligible a = true) :
    frame s w cbw a =
      some ({ s with clients := s.clients.insert w s.nextWindow,
                     nextWindow := s.nextWindow + 1 },
        [XRequest.createSimpleWindow s.root a.x a.y a.width.toNat a.height.toNat
            BORDER_WIDTH BORDER_COLOR BG_COLOR,
         XRequest.selectInput s.nextWindow
            (SubstructureRedirectMask ||| SubstructureNotifyMask),
         XRequest.addToSaveSet w,
         XRequest.reparentWindow w s.nextWindow 0 0,
         XRequest.mapWindow s.nextWindow,
         XRequest.grabKey Mod1Mask XK_Q w,
         XRequest.grabKey Mod1Mask XK_Tab w,
         XRequest.grabButton Mod1Mask Button1 w]) := by
  have hnot : ¬(cbw = true ∧ (a.override_redirect ≠ 0 ∨ a.map_state ≠ IsViewable)) := by
    rintro ⟨hc, hcond⟩
    rcases helig with he | he
    · rw [he] at hc
      cases hc
    · simp only [eligible, Bool.and_eq_true, beq_iff_eq] at he
      rcases hcond with hcond | hcond
      · exact hcond he.1
      · exact hcond he.2
  rw [frame, if_neg hnot, if_pos ⟨hw, hh⟩]

/-- Unfolding of one startup-scan step through `Option.bind`. -/
theorem startupScan_cons_eq (s : WMState) (w : Window) (a : XWindowAttributes)
    (rest : List (Window × XWindowAttributes)) :
    startupScan s ((w, a) :: rest) =
      (frame s w true a).bind (fun pr =>
        (startupScan pr.1 rest).map (fun pr2 => (pr2.1, pr.2 ++ pr2.2))) := by
  simp only [startupScan]
  rcases hf : frame s w true a with _ | ⟨s1, reqs1⟩
  · rfl
  · rcases hs : startupScan s1 rest with _ | ⟨s2, reqs2⟩ <;> simp [hs]

/-- The registry after the startup scan: the original entries followed by one
entry per eligible scanned window, frame ids allocated in order. -/
theorem startupScan_clients (ws : List (Window × XWindowAttributes)) :
    ∀ s s1 reqs, (∀ p ∈ ws, 0 ≤ p.2.width ∧ 0 ≤ p.2.height) →
      startupScan s ws = some (s1, reqs) →
      s1.clients.entries = s.clients.entries ++ scanClients s.nextWindow ws := by
  induction ws with
  | nil =>
    intro s s1 reqs _ h
    simp only [startupScan, Option.some.injEq, Prod.mk.injEq] at h
    rw [← h.1]
    simp [scanClients]
  | cons p rest ih =>
    intro s s1 reqs hdims h
    obtain ⟨w, a⟩ := p
    have hd : 0 ≤ a.width ∧ 0 ≤ a.height := hdims (w, a) (List.mem_cons_self _ _)
    have hdrest : ∀ p ∈ rest, 0 ≤ p.2.width ∧ 0 ≤ p.2.height :=
      fun q hq => hdims q (List.mem_cons_of_mem _ hq)
    rw [startupScan_cons_eq] at h
    rcases helig : eligible a with _ | _
    · rw [frame_skip s w a helig] at h
      simp only [Option.some_bind] at h
      rcases hs : startupScan s rest with _ | ⟨s2, reqs2⟩
      · rw [hs] at h
        simp at h
      · rw [hs] at h
        simp only [Option.map_some', Option.some.injEq, Prod.mk.injEq] at h
        rw [← h.1, ih s s2 reqs2 hdrest hs]
        simp [scanClients, helig]
    · rw [frame_run s w a true hd.1 hd.2 (Or.inr helig)] at h
      simp only [Option.some_bind] at h
      rcases hs : startupScan { s with
          clients := s.clients.insert w s.nextWindow,
          nextWindow := s.nextWindow + 1 } rest with _ | ⟨s2, reqs2⟩
      · rw [hs] at h
        simp at h
      · rw [hs] at h
        simp only [Option.map_some', Option.some.injEq, Prod.mk.injEq] at h
        rw [← h.1, ih _ s2 reqs2 hdrest hs]
        simp [scanClients, helig, ClientList.insert, List.append_assoc]

/-- No scan entry is produced for an id absent from the scanned list. -/
theorem scanClients_countP_zero (w : Window) :
    ∀ ws : List (Window × XWindowAttributes), w ∉ ws.map Prod.fst →
      ∀ next, (scanClients next ws).countP (fun p => p.1 == w) = 0 := by
  intro ws
  induction ws with
  | nil => intro _ next; simp [scanClients]
  | cons q rest ih =>
    intro h next
    obtain ⟨qw, qa⟩ := q
    simp only [List.map_cons, List.mem_cons] at h
    push_neg at h
    have hne : qw ≠ w := fun he => h.1 he.symm
    rcases helig : eligible qa with _ | _
    · simp [scanClients, helig, ih h.2 next]
    · simp [scanClients, helig, List.countP_cons, hne, ih h.2 (next + 1)]

/-- Each window appearing once in the scanned list yields exactly one
registry entry when eligible, and none when not. -/
theorem scanClients_countP (w : Window) (a : XWindowAttributes) :
    ∀ ws : List (Window × XWindowAttributes), (ws.map Prod.fst).Nodup →
      (w, a) ∈ ws → ∀ next,
      (scanClients next ws).countP (fun p => p.1 == w) =
        if eligible a then 1 else 0 := by
  intro ws
  induction ws with
  | nil => intro _ hmem; cases hmem
  | cons q rest ih =>
    intro hnd hmem next
    obtain ⟨qw, qa⟩ := q
    rw [List.map_cons] at hnd
    rcases List.nodup_cons.mp hnd with ⟨hhead, htail⟩
    rcases List.mem_cons.mp hmem with heq | hmem2
    · injection heq with h1 h2
      subst h1
      subst h2
      rcases helig : eligible a with _ | _
      · simp [scanClients, helig, scanClients_countP_zero w rest hhead next]
      · simp [scanClients, helig, List.countP_cons,
          scanClients_countP_zero w rest hhead (next + 1)]
    · have hwrest : w ∈ rest.map Prod.fst := by
        simpa using List.mem_map_of_mem Prod.fst hmem2
      have hne : qw ≠ w := fun he => hhead (he ▸ hwrest)
      rcases helig : eligible qa with _ | _
      · simp [scanClients, helig, ih htail hmem2 next]
      · simp [scanClients, helig, List.countP_cons, hne, ih htail hmem2 (next + 1)]

/-- Iterated cycling walks the registry cyclically: starting from the client
of the entry at index `i`, after `k` presses the focused client is the one at
index `(i + k) mod N`. -/
theorem cycleN_getElem (c : ClientList) (h : (c.entries.map Prod.fst).Nodup) :
    ∀ k i : Nat, i < c.len → ∀ w f : Window, c.entries[i]? = some (w, f) →
      ∃ w1 f1, c.entries[(i + k) % c.len]? = some (w1, f1) ∧
        cycleN c w k = some w1 := by
  intro k
  induction k with
  | zero =>
    intro i hi w f hent
    refine ⟨w, f, ?_, rfl⟩
    rwa [Nat.add_zero, Nat.mod_eq_of_lt hi]
  | succ k ih =>
    intro i hi w f hent
    have hN : 0 < c.len := Nat.lt_of_le_of_lt (Nat.zero_le i) hi
    have hfind : findAux w c.entries = some i :=
      findAux_getElem_nodup c.entries h i w f hent
    have hi1 : (i + 1) % c.len < c.len := Nat.mod_lt _ hN
    obtain ⟨p1, hp1⟩ : ∃ p1, c.entries[(i + 1) % c.len]? = some p1 :=
      ⟨_, List.getElem?_eq_getElem hi1⟩
    obtain ⟨w1, f1⟩ := p1
    have hct : cycle_target c w = some (w1, f1) := by
      simp only [cycle_target, ClientList.find, hfind, ClientList.index]
      exact hp1
    have hcyc : cycleN c w (k + 1) = cycleN c w1 k := by
      simp only [cycleN, hct]
    obtain ⟨w2, f2, hw2, hcy2⟩ := ih ((i + 1) % c.len) hi1 w1 f1 hp1
    refine ⟨w2, f2, ?_, by rw [hcyc]; exact hcy2⟩
    have harith : ((i + 1) % c.len + k) % c.len = (i + (k + 1)) % c.len := by
      rw [Nat.mod_add_mod]
      congr 1
      omega
    rwa [harith] at hw2

/-! ## Claim theorems -/

/-- C1: for every ConfigureRequest event the handler applies exactly the
requested geometry, border width, sibling and stack mode under exactly the
requested value mask — to the frame first when the client is registered, and
in every case to the client itself, with no field clamped or modified. -/
theorem configure_request_exact_passthrough (s : WMState)
    (e : XConfigureRequestEvent) (h : e.value_mask < 2 ^ 32) :
    (∀ fr, s.clients.get e.window = some fr →
       on_configure_request s e = some (s,
         [XRequest.configureWindow fr e.value_mask
            ⟨e.x, e.y, e.width, e.height, e.border_width, e.above, e.detail⟩,
          XRequest.configureWindow e.window e.value_mask
            ⟨e.x, e.y, e.width, e.height, e.border_width, e.above, e.detail⟩])) ∧
    (s.clients.get e.window = none →
       on_configure_request s e = some (s,
         [XRequest.configureWindow e.window e.value_mask
            ⟨e.x, e.y, e.width, e.height, e.border_width, e.above, e.detail⟩])) := by
  constructor
  · intro fr hfr
    unfold on_configure_request
    rw [if_pos h]
    simp [hfr]
  · intro hnone
    unfold on_configure_request
    rw [if_pos h]
    simp [hnone]

/-- Witness for C1 at a concrete registered client and a concrete event. -/
theorem configure_request_exact_passthrough_witness :
    on_configure_request sampleState ⟨5, 11, 22, 300, 400, 2, 0, 0, 15⟩ =
      some (sampleState,
        [XRequest.configureWindow 100 15 ⟨11, 22, 300, 400, 2, 0, 0⟩,
         XRequest.configureWindow 5 15 ⟨11, 22, 300, 400, 2, 0, 0⟩]) :=
  (configure_request_exact_passthrough sampleState
    ⟨5, 11, 22, 300, 400, 2, 0, 0, 15⟩ (by decide)).1 100 (by decide)

/-- C2: in every non-skipped execution of `frame`, the add-to-save-set
request for the client is issued strictly before the request reparenting the
client into the new frame: add-to-save-set sits at position 2 of the request
sequence, the reparent at position 3, and no reparent request occurs among
the requests issued before the add-to-save-set. -/
theorem frame_save_set_before_reparent (s : WMState) (w : Window) (cbw : Bool)
    (a : XWindowAttributes) (s1 : WMState) (reqs : List XRequest)
    (h : frame s w cbw a = some (s1, reqs)) (hne : reqs ≠ []) :
    reqs[2]? = some (XRequest.addToSaveSet w) ∧
    reqs[3]? = some (XRequest.reparentWindow w s.nextWindow 0 0) ∧
    XRequest.reparentWindow w s.nextWindow 0 0 ∉ reqs.take 2 := by
  rw [frame] at h
  by_cases hskip : cbw = true ∧ (a.override_redirect ≠ 0 ∨ a.map_state ≠ IsViewable)
  · rw [if_pos hskip] at h
    simp only [Option.some.injEq, Prod.mk.injEq] at h
    exact absurd h.2.symm hne
  · rw [if_neg hskip] at h
    by_cases hdim : 0 ≤ a.width ∧ 0 ≤ a.height
    · rw [if_pos hdim] at h
      simp only [Option.some.injEq, Prod.mk.injEq] at h
      rw [← h.2]
      refine ⟨rfl, rfl, ?_⟩
      simp
    · rw [if_neg hdim] at h
      cases h

/-- Witness for C2: a concrete non-skipped `frame` run on client 7. -/
theorem frame_save_set_before_reparent_witness :
    ([XRequest.createSimpleWindow 1 10 20 640 480 BORDER_WIDTH BORDER_COLOR
        BG_COLOR,
      XRequest.selectInput 200 (SubstructureRedirectMask ||| SubstructureNotifyMask),
      XRequest.addToSaveSet 7,
      XRequest.reparentWindow 7 200 0 0,
      XRequest.mapWindow 200,
      XRequest.grabKey Mod1Mask XK_Q 7,
      XRequest.grabKey Mod1Mask XK_Tab 7,
      XRequest.grabButton Mod1Mask Button1 7] : List XRequest)[2]? =
        some (XRequest.addToSaveSet 7) ∧
    ([XRequest.createSimpleWindow 1 10 20 640 480 BORDER_WIDTH BORDER_COLOR
        BG_COLOR,
      XRequest.selectInput 200 (SubstructureRedirectMask ||| SubstructureNotifyMask),
      XRequest.addToSaveSet 7,
      XRequest.reparentWindow 7 200 0 0,
      XRequest.mapWindow 200,
      XRequest.grabKey Mod1Mask XK_Q 7,
      XRequest.grabKey Mod1Mask XK_Tab 7,
      XRequest.grabButton Mod1Mask Button1 7] : List XRequest)[3]? =
        some (XRequest.reparentWindow 7 sampleState.nextWindow 0 0) ∧
    XRequest.reparentWindow 7 sampleState.nextWindow 0 0 ∉
      ([XRequest.createSimpleWindow 1 10 20 640 480 BORDER_WIDTH BORDER_COLOR
          BG_COLOR,
        XRequest.selectInput 200 (SubstructureRedirectMask ||| SubstructureNotifyMask),
        XRequest.addToSaveSet 7,
        XRequest.reparentWindow 7 200 0 0,
        XRequest.mapWindow 200,
        XRequest.grabKey Mod1Mask XK_Q 7,
        XRequest.grabKey Mod1Mask XK_Tab 7,
        XRequest.grabButton Mod1Mask Button1 7] : List XRequest).take 2 :=
  frame_save_set_before_reparent sampleState 7 false sampleAttrs
    { root := 1, clients := ⟨[(5, 100), (7, 200)]⟩, drag_pos_start := none,
      drag_frame_pos := none, nextWindow := 201 } _ (by decide) (by decide)

/-- C9: the provisional startup error handler accepts exactly `BadAccess`:
an access-denied error sets the detection flag and returns 0; any other
error code fails the handler's assertion (aborting the process). -/
theorem wm_detected_requires_bad_access (e : XErrorEvent) :
    (e.error_code = BadAccess → on_wm_detected e = some (true, 0)) ∧
    (e.error_code ≠ BadAccess → on_wm_detected e = none) := by
  constructor <;> intro h <;> simp [on_wm_detected, h]

/-- Witness for C9 at the `BadAccess` code (10) and a non-`BadAccess`
code (2). -/
theorem wm_detected_requires_bad_access_witness :
    on_wm_detected ⟨10⟩ = some (true, 0) ∧ on_wm_detected ⟨2⟩ = none :=
  ⟨(wm_detected_requires_bad_access ⟨10⟩).1 (by decide),
   (wm_detected_requires_bad_access ⟨2⟩).2 (by decide)⟩

/-- C10: `ClientList::remove` is total. If the id is absent the list is
unchanged (no panic, no error); if `find` locates it at `i`, then `i` is in
bounds (so `Vec::remove(i)` cannot panic), the entry at `i` is the first one
with that client id, and exactly that entry is removed, every other entry
keeping its position relative to the rest. -/
theorem client_list_remove_total (c : ClientList) (w : Window) :
    (w ∉ c.entries.map Prod.fst → c.remove w = c) ∧
    (w ∈ c.entries.map Prod.fst → c.find w ≠ none) ∧
    (∀ i, c.find w = some i →
       i < c.len ∧ (c.entries[i]?).map Prod.fst = some w ∧
       w ∉ (c.entries.take i).map Prod.fst ∧
       (c.remove w).entries = c.entries.take i ++ c.entries.drop (i + 1)) := by
  refine ⟨?_, ?_, ?_⟩
  · intro habs
    have hn : c.find w = none := (findAux_eq_none_iff w c.entries).mpr habs
    rw [ClientList.remove, hn]
  · intro hmem hn
    exact (findAux_eq_none_iff w c.entries).mp hn hmem
  · intro i hfind
    obtain ⟨h1, h2⟩ := findAux_first_match w c.entries i hfind
    refine ⟨findAux_lt_length w c.entries i hfind, h1, h2, ?_⟩
    rw [ClientList.remove, hfind]
    exact eraseIdx_eq_take_append_drop c.entries i

/-- Witness for C10: removal of an absent id (9) is the identity, and
removal of the present id 7 (found at index 1) drops exactly that entry. -/
theorem client_list_remove_total_witness :
    sampleClients.remove 9 = sampleClients ∧
    (1 < sampleClients.len ∧
     (sampleClients.entries[1]?).map Prod.fst = some 7 ∧
     7 ∉ (sampleClients.entries.take 1).map Prod.fst ∧
     (sampleClients.remove 7).entries =
       sampleClients.entries.take 1 ++ sampleClients.entries.drop 2) :=
  ⟨(client_list_remove_total sampleClients 9).1 (by decide),
   (client_list_remove_total sampleClients 7).2.2 1 (by decide)⟩

/-- C5: an UnmapNotify triggers `unframe` iff the notifying window differs
from the root and the target is a registered client.  The handler never
panics; when the guard fails (in particular on a second UnmapNotify for an
already-unregistered client) the state is unchanged and nothing is issued;
when it holds, the registered client is unframed with its full request
sequence. -/
theorem unmap_notify_guard (s : WMState) (e : XUnmapEvent) :
    on_unmap_notify s e ≠ none ∧
    (¬(e.event ≠ s.root ∧ s.clients.contains e.window = true) →
       on_unmap_notify s e = some (s, [])) ∧
    (∀ fr, e.event ≠ s.root → s.clients.get e.window = some fr →
       on_unmap_notify s e =
         some ({ s with clients := s.clients.remove e.window },
           [XRequest.unmapWindow fr,
            XRequest.reparentWindow e.window s.root 0 0,
            XRequest.removeFromSaveSet e.window,
            XRequest.destroyWindow fr])) := by
  refine ⟨?_, ?_, ?_⟩
  · by_cases hc : e.event ≠ s.root ∧ s.clients.contains e.window = true
    · obtain ⟨fr, hfr⟩ := get_isSome_of_contains s.clients e.window hc.2
      rw [on_unmap_notify, if_pos hc, unframe, hfr]
      exact Option.noConfusion
    · rw [on_unmap_notify, if_neg hc]
      exact Option.noConfusion
  · intro hc
    rw [on_unmap_notify, if_neg hc]
  · intro fr hroot hfr
    have hcont : s.clients.contains e.window = true := by
      rw [ClientList.contains, containsAux_eq_isSome]
      rw [ClientList.get] at hfr
      rw [hfr]
      rfl
    rw [on_unmap_notify, if_pos ⟨hroot, hcont⟩, unframe, hfr]

/-- Witness for C5: on `sampleState`, an event from the root is ignored,
and a genuine unmap of registered client 5 unframes it. -/
theorem unmap_notify_guard_witness :
    on_unmap_notify sampleState ⟨1, 5⟩ = some (sampleState, []) ∧
    on_unmap_notify sampleState ⟨2, 5⟩ =
      some ({ sampleState with clients := sampleState.clients.remove 5 },
        [XRequest.unmapWindow 100, XRequest.reparentWindow 5 1 0 0,
         XRequest.removeFromSaveSet 5, XRequest.destroyWindow 100]) :=
  ⟨(unmap_notify_guard sampleState ⟨1, 5⟩).2.1 (by decide),
   (unmap_notify_guard sampleState ⟨2, 5⟩).2.2 100 (by decide) (by decide)⟩

/-- C7: with distinct registered clients, cycling from the client stored at
index `i` targets exactly the entry at index `(i + 1) mod N`, and `N`
consecutive cycle actions starting from any registered client return to that
client. -/
theorem cycle_target_next_entry (c : ClientList)
    (h : (c.entries.map Prod.fst).Nodup) (i : Nat) (hi : i < c.len)
    (w f : Window) (hent : c.entries[i]? = some (w, f)) :
    cycle_target c w = c.entries[(i + 1) % c.len]? ∧
    cycleN c w c.len = some w := by
  have hfind : findAux w c.entries = some i :=
    findAux_getElem_nodup c.entries h i w f hent
  constructor
  · simp only [cycle_target, ClientList.find, hfind, ClientList.index]
  · obtain ⟨w1, f1, hw1, hcy⟩ := cycleN_getElem c h c.len i hi w f hent
    have : (i + c.len) % c.len = i := by
      rw [Nat.add_mod_right, Nat.mod_eq_of_lt hi]
    rw [this, hent] at hw1
    cases hw1
    exact hcy

/-- Witness for C7: in the two-entry registry [(5,100),(7,101)], cycling
from client 5 (index 0) targets the entry at index 1, and two cycles return
to client 5. -/
theorem cycle_target_next_entry_witness :
    cycle_target sampleClients 5 = sampleClients.entries[(0 + 1) % sampleClients.len]? ∧
    cycleN sampleClients 5 sampleClients.len = some 5 :=
  cycle_target_next_entry sampleClients (by decide) 0 (by decide) 5 100 (by decide)

/-- C8: during the startup scan an override-redirect or non-viewable window
is skipped (no frame, no registry entry, no requests); an eligible window —
or any window framed on MapRequest, regardless of attributes — is framed
with the full request sequence; and after a startup scan over distinct
windows each scanned window owns exactly one registry entry when eligible
and none when not. -/
theorem startup_scan_framing :
    (∀ (s : WMState) (w : Window) (a : XWindowAttributes),
       eligible a = false → frame s w true a = some (s, [])) ∧
    (∀ (s : WMState) (w : Window) (a : XWindowAttributes) (cbw : Bool),
       0 ≤ a.width → 0 ≤ a.height → (cbw = false ∨ eligible a = true) →
       frame s w cbw a =
         some ({ s with clients := s.clients.insert w s.nextWindow,
                        nextWindow := s.nextWindow + 1 },
           [XRequest.createSimpleWindow s.root a.x a.y a.width.toNat
              a.height.toNat BORDER_WIDTH BORDER_COLOR BG_COLOR,
            XRequest.selectInput s.nextWindow
              (SubstructureRedirectMask ||| SubstructureNotifyMask),
            XRequest.addToSaveSet w,
            XRequest.reparentWindow w s.nextWindow 0 0,
            XRequest.mapWindow s.nextWindow,
            XRequest.grabKey Mod1Mask XK_Q w,
            XRequest.grabKey Mod1Mask XK_Tab w,
            XRequest.grabButton Mod1Mask Button1 w])) ∧
    (∀ (s s1 : WMState) (ws : List (Window × XWindowAttributes))
       (reqs : List XRequest),
       s.clients.entries = [] → (ws.map Prod.fst).Nodup →
       (∀ p ∈ ws, 0 ≤ p.2.width ∧ 0 ≤ p.2.height) →
       startupScan s ws = some (s1, reqs) →
       ∀ (w : Window) (a : XWindowAttributes), (w, a) ∈ ws →
         s1.clients.entries.countP (fun p => p.1 == w) =
           if eligible a then 1 else 0) := by
  refine ⟨frame_skip, ?_, ?_⟩
  · intro s w a cbw hw hh helig
    exact frame_run s w a cbw hw hh helig
  · intro s s1 ws reqs hempty hnd hdims hscan w a hmem
    have hcl := startupScan_clients ws s s1 reqs hdims hscan
    rw [hcl, hempty, List.nil_append]
    exact scanClients_countP w a ws hnd hmem s.nextWindow

/-- Witness for C8: an override-redirect window is skipped by the startup
scan, and a two-window scan (one eligible, one override-redirect) leaves
exactly one registry entry for the eligible window and none for the other. -/
theorem startup_scan_framing_witness :
    frame sampleState 9 true orAttrs = some (sampleState, []) ∧
    ({ root := 1, clients := ⟨[(5, 100)]⟩, drag_pos_start := none,
       drag_frame_pos := none, nextWindow := 101 } : WMState).clients.entries.countP
        (fun p => p.1 == 5) = (if eligible sampleAttrs then 1 else 0) ∧
    ({ root := 1, clients := ⟨[(5, 100)]⟩, drag_pos_start := none,
       drag_frame_pos := none, nextWindow := 101 } : WMState).clients.entries.countP
        (fun p => p.1 == 6) = (if eligible orAttrs then 1 else 0) :=
  ⟨startup_scan_framing.1 sampleState 9 orAttrs (by decide),
   startup_scan_framing.2.2
     { root := 1, clients := ⟨[]⟩, drag_pos_start := none,
       drag_frame_pos := none, nextWindow := 100 }
     { root := 1, clients := ⟨[(5, 100)]⟩, drag_pos_start := none,
       drag_frame_pos := none, nextWindow := 101 }
     [(5, sampleAttrs), (6, orAttrs)]
     [XRequest.createSimpleWindow 1 10 20 640 480 BORDER_WIDTH BORDER_COLOR
        BG_COLOR,
      XRequest.selectInput 100 (SubstructureRedirectMask ||| SubstructureNotifyMask),
      XRequest.addToSaveSet 5, XRequest.reparentWindow 5 100 0 0,
      XRequest.mapWindow 100, XRequest.grabKey Mod1Mask XK_Q 5,
      XRequest.grabKey Mod1Mask XK_Tab 5, XRequest.grabButton Mod1Mask Button1 5]
     rfl (by decide) (by decide) (by decide) 5 sampleAttrs (by decide),
   startup_scan_framing.2.2
     { root := 1, clients := ⟨[]⟩, drag_pos_start := none,
       drag_frame_pos := none, nextWindow := 100 }
     { root := 1, clients := ⟨[(5, 100)]⟩, drag_pos_start := none,
       drag_frame_pos := none, nextWindow := 101 }
     [(5, sampleAttrs), (6, orAttrs)]
     [XRequest.createSimpleWindow 1 10 20 640 480 BORDER_WIDTH BORDER_COLOR
        BG_COLOR,
      XRequest.selectInput 100 (SubstructureRedirectMask ||| SubstructureNotifyMask),
      XRequest.addToSaveSet 5, XRequest.reparentWindow 5 100 0 0,
      XRequest.mapWindow 100, XRequest.grabKey Mod1Mask XK_Q 5,
      XRequest.grabKey Mod1Mask XK_Tab 5, XRequest.grabButton Mod1Mask Button1 5]
     rfl (by decide) (by decide) (by decide) 6 orAttrs (by decide)⟩

/-- Counterexample to C3: `on_map_request` performs no already-framed check.
From an empty registry, two MapRequests for the same client 5 leave two
registry entries both carrying client id 5 — `ClientList::insert` silently
appends the duplicate instead of treating it as a precondition violation. -/
theorem map_request_duplicate_frame_counterexample :
    ((on_map_request
        { root := 1, clients := ⟨[]⟩, drag_pos_start := none,
          drag_frame_pos := none, nextWindow := 100 } ⟨5⟩ sampleAttrs).bind
      (fun p => on_map_request p.1 ⟨5⟩ sampleAttrs)).map
        (fun p => p.1.clients.entries) = some [(5, 100), (5, 101)] ∧
    ([(5, 100), (5, 101)] : List (Window × Window)).countP
      (fun p => p.1 == 5) = 2 :=
  ⟨by decide, by decide⟩

/-- C3 as amended: on a MapRequest the client is framed unconditionally —
there is no already-framed guard — so the handler always appends a fresh
`(client, new frame)` entry; when the client was already registered this
leaves at least two registry entries with the same client id. -/
theorem map_request_frames_unconditionally (s : WMState)
    (e : XMapRequestEvent) (a : XWindowAttributes)
    (hw : 0 ≤ a.width) (hh : 0 ≤ a.height) :
    on_map_request s e a =
      some ({ s with clients := s.clients.insert e.window s.nextWindow,
                     nextWindow := s.nextWindow + 1 },
        [XRequest.createSimpleWindow s.root a.x a.y a.width.toNat a.height.toNat
            BORDER_WIDTH BORDER_COLOR BG_COLOR,
         XRequest.selectInput s.nextWindow
            (SubstructureRedirectMask ||| SubstructureNotifyMask),
         XRequest.addToSaveSet e.window,
         XRequest.reparentWindow e.window s.nextWindow 0 0,
         XRequest.mapWindow s.nextWindow,
         XRequest.grabKey Mod1Mask XK_Q e.window,
         XRequest.grabKey Mod1Mask XK_Tab e.window,
         XRequest.grabButton Mod1Mask Button1 e.window,
         XRequest.mapWindow e.window]) ∧
    (s.clients.contains e.window = true →
       2 ≤ (s.clients.insert e.window s.nextWindow).entries.countP
         (fun p => p.1 == e.window)) := by
  constructor
  · rw [on_map_request, frame_run s e.window a false hw hh (Or.inl rfl)]
    rfl
  · intro hcont
    rw [ClientList.insert, List.countP_append]
    have h1 := countP_pos_of_containsAux e.window s.clients.entries hcont
    have h2 : ([(e.window, s.nextWindow)] : List (Window × Window)).countP
        (fun p => p.1 == e.window) = 1 := by simp
    omega

/-- Witness for C3 (amended) on a state already containing client 5. -/
theorem map_request_frames_unconditionally_witness :
    on_map_request sampleState ⟨5⟩ sampleAttrs =
      some ({ sampleState with
          clients := sampleState.clients.insert 5 sampleState.nextWindow,
          nextWindow := sampleState.nextWindow + 1 },
        [XRequest.createSimpleWindow 1 10 20 640 480 BORDER_WIDTH BORDER_COLOR
            BG_COLOR,
         XRequest.selectInput sampleState.nextWindow
            (SubstructureRedirectMask ||| SubstructureNotifyMask),
         XRequest.addToSaveSet 5,
         XRequest.reparentWindow 5 sampleState.nextWindow 0 0,
         XRequest.mapWindow sampleState.nextWindow,
         XRequest.grabKey Mod1Mask XK_Q 5,
         XRequest.grabKey Mod1Mask XK_Tab 5,
         XRequest.grabButton Mod1Mask Button1 5,
         XRequest.mapWindow 5]) ∧
    2 ≤ (sampleState.clients.insert 5 sampleState.nextWindow).entries.countP
      (fun p => p.1 == 5) :=
  ⟨(map_request_frames_unconditionally sampleState ⟨5⟩ sampleAttrs
      (by decide) (by decide)).1,
   (map_request_frames_unconditionally sampleState ⟨5⟩ sampleAttrs
      (by decide) (by decide)).2 (by decide)⟩

/-- Counterexample to C4: in `unframe`'s request sequence the reparent back
to the root (position 1) comes strictly before the remove-from-save-set
(position 2); no remove-from-save-set request is issued up to and including
the reparent. -/
theorem unframe_save_set_order_counterexample :
    (unframe sampleState 5).map Prod.snd =
      some [XRequest.unmapWindow 100, XRequest.reparentWindow 5 1 0 0,
            XRequest.removeFromSaveSet 5, XRequest.destroyWindow 100] ∧
    XRequest.removeFromSaveSet 5 ∉
      ([XRequest.unmapWindow 100, XRequest.reparentWindow 5 1 0 0] : List XRequest) :=
  ⟨by decide, by decide⟩

/-- C4 as amended: `unframe` issues, in order, unmap-frame, reparent-to-root,
remove-from-save-set, destroy-frame — the save-set removal comes immediately
after (not before) the reverse reparent, and before the frame is destroyed. -/
theorem unframe_reparent_before_save_set_removal (s : WMState) (w fr : Window)
    (h : s.clients.get w = some fr) :
    unframe s w = some ({ s with clients := s.clients.remove w },
      [XRequest.unmapWindow fr,
       XRequest.reparentWindow w s.root 0 0,
       XRequest.removeFromSaveSet w,
       XRequest.destroyWindow fr]) := by
  rw [unframe, h]

/-- Witness for C4 (amended) at registered client 5 with frame 100. -/
theorem unframe_reparent_before_save_set_removal_witness :
    unframe sampleState 5 =
      some ({ sampleState with clients := sampleState.clients.remove 5 },
        [XRequest.unmapWindow 100, XRequest.reparentWindow 5 1 0 0,
         XRequest.removeFromSaveSet 5, XRequest.destroyWindow 100]) :=
  unframe_reparent_before_save_set_removal sampleState 5 100 (by decide)

/-- Counterexample to C6: after a qualifying press on registered client 5
and the button release, a further motion event reaches `on_motion_notify`
with the drag state cleared, so the handler's `assert!(drag_pos_start.is_some())`
fails — the process panics instead of ignoring the event. -/
theorem motion_after_release_crash_counterexample :
    on_button_pressed sampleState ⟨5, 10, 20⟩ ⟨3, 4, 50, 60, 3, 24⟩ =
      some ({ root := 1, clients := ⟨[(5, 100)]⟩, drag_pos_start := some (10, 20),
              drag_frame_pos := some (3, 4), nextWindow := 200 },
        [XRequest.getGeometry 100, XRequest.raiseWindow 100,
         XRequest.setInputFocus 5]) ∧
    on_motion_notify
      (on_button_released
        { root := 1, clients := ⟨[(5, 100)]⟩, drag_pos_start := some (10, 20),
          drag_frame_pos := some (3, 4), nextWindow := 200 }).1
      ⟨5, 30, 40, 256⟩ = none :=
  ⟨by decide, by decide⟩

/-- C6 as amended: a motion event with Button1 held moves the frame to
exactly `F0 + (P1 - P0)` by a pure move request (never a resize); after the
release clears the drag state, a further motion event does not move the
frame — but instead of being a silent no-op it fails the handler's
drag-state assertions (the process aborts). -/
theorem drag_translation_amended (s : WMState) (w fr : Window)
    (hget : s.clients.get w = some fr) (g : XGeometry)
    (p0x p0y p1x p1y : Int) (st : Nat) (hb : st &&& Button1Mask ≠ 0)
    (e2 : XMotionEvent) :
    on_button_pressed s ⟨w, p0x, p0y⟩ g =
      some ({ s with drag_pos_start := some (p0x, p0y),
                     drag_frame_pos := some (g.x, g.y) },
        [XRequest.getGeometry fr, XRequest.raiseWindow fr,
         XRequest.setInputFocus w]) ∧
    on_motion_notify
        { s with drag_pos_start := some (p0x, p0y),
                 drag_frame_pos := some (g.x, g.y) } ⟨w, p1x, p1y, st⟩ =
      some ({ s with drag_pos_start := some (p0x, p0y),
                     drag_frame_pos := some (g.x, g.y) },
        [XRequest.moveWindow fr (g.x + (p1x - p0x)) (g.y + (p1y - p0y))]) ∧
    on_motion_notify
      (on_button_released
        { s with drag_pos_start := some (p0x, p0y),
                 drag_frame_pos := some (g.x, g.y) }).1 e2 = none := by
  refine ⟨?_, ?_, ?_⟩
  · simp [on_button_pressed, hget]
  · simp [on_motion_notify, hget, hb]
  · rcases hg : ((on_button_released
        { s with drag_pos_start := some (p0x, p0y),
                 drag_frame_pos := some (g.x, g.y) }).1).clients.get e2.window
      with _ | fr2 <;>
      simp_all [on_motion_notify, on_button_released]

/-- Witness for C6 (amended): press at (10,20) with the frame at (3,4),
motion to (33,47) with Button1 held, then a post-release motion. -/
theorem drag_translation_amended_witness :
    on_button_pressed sampleState ⟨5, 10, 20⟩ ⟨3, 4, 50, 60, 3, 24⟩ =
      some ({ sampleState with drag_pos_start := some (10, 20),
                               drag_frame_pos := some (3, 4) },
        [XRequest.getGeometry 100, XRequest.raiseWindow 100,
         XRequest.setInputFocus 5]) ∧
    on_motion_notify
        { sampleState with drag_pos_start := some (10, 20),
                           drag_frame_pos := some (3, 4) } ⟨5, 33, 47, 256⟩ =
      some ({ sampleState with drag_pos_start := some (10, 20),
                               drag_frame_pos := some (3, 4) },
        [XRequest.moveWindow 100 (3 + (33 - 10)) (4 + (47 - 20))]) ∧
    on_motion_notify
      (on_button_released
        { sampleState with drag_pos_start := some (10, 20),
                           drag_frame_pos := some (3, 4) }).1
      ⟨5, 70, 80, 256⟩ = none :=
  drag_translation_amended sampleState 5 100 (by decide) ⟨3, 4, 50, 60, 3, 24⟩
    10 20 33 47 256 (by decide) ⟨5, 70, 80, 256⟩
